import Mathlib

/-!
Shallow embedding of `libtvdb` (file `src/libtvdb/__init__.py`): the `TVDBClient`
class, its construction, `authenticate`, `get` and `search_show`, together with
theorems settling the frozen claims about the natural-language specification.

Modelling conventions:
* Python JSON values are the inductive `Json`; a parsed JSON `null` in a dict value
  position is indistinguishable from an absent key under `dict.get`, which the
  lookup function reflects.
* Exceptions are the inductive `PyError`; Python computations that can raise are
  `Except PyError`-valued.
* The network is a parameter: the outcome of the i-th login POST is `transport i`,
  and the outcome of the single GET of `TVDBClient.get` is a `ReqResult` argument.
  Every issued request is recorded in a `List NetEvent` trace, so "makes N network
  calls" is a statement about the trace.
* Wall-clock timeouts are not modelled as durations; a request that times out is the
  `ReqResult.timeout` outcome of the transport. The `timeout` arguments of the
  Python methods are carried as `Rat` values for signature fidelity but have no
  semantic effect beyond being passed to the transport in the real code.
-/

/-- A JSON value as produced by Python's `json` module (`response.json()`). -/
inductive Json where
  | null : Json
  | bool : Bool → Json
  | num : Int → Json
  | str : String → Json
  | arr : List Json → Json
  | obj : List (String × Json) → Json

mutual

/-- Structural equality test on JSON values, mirroring Python `==` on the cases the
code exercises (the code only ever compares against a string literal, and in Python
a non-string never equals a string). -/
def Json.beq : Json → Json → Bool
  | .null, .null => true
  | .bool a, .bool b => a == b
  | .num a, .num b => a == b
  | .str a, .str b => a == b
  | .arr a, .arr b => Json.beqList a b
  | .obj a, .obj b => Json.beqFields a b
  | _, _ => false

/-- Elementwise `Json.beq` on arrays. -/
def Json.beqList : List Json → List Json → Bool
  | [], [] => true
  | a :: as, b :: bs => Json.beq a b && Json.beqList as bs
  | _, _ => false

/-- Elementwise `Json.beq` on object fields. -/
def Json.beqFields : List (String × Json) → List (String × Json) → Bool
  | [], [] => true
  | (ka, va) :: as, (kb, vb) :: bs => ka == kb && Json.beq va vb && Json.beqFields as bs
  | _, _ => false

end

/-- Python exceptions that the code under `src/libtvdb/__init__.py` can raise or
let propagate. `exception` is the built-in `Exception`; `tvdbException`,
`notFoundException` and `tvdbAuthenticationException` are the library's typed
errors from `libtvdb.exceptions`; `requestsTimeout`/`requestsTransport` are
transport-level exceptions from the `requests` package propagating uncaught;
`jsonDecodeError` is an uncaught `json.JSONDecodeError` from `response.json()`. -/
inductive PyError where
  | exception : String → PyError
  | attributeError : String → PyError
  | typeError : String → PyError
  | jsonDecodeError : String → PyError
  | tvdbException : String → PyError
  | notFoundException : String → PyError
  | tvdbAuthenticationException : String → PyError
  | requestsTimeout : PyError
  | requestsTransport : String → PyError
deriving DecidableEq

/-- Lookup of a key in a parsed JSON object, as Python `dict.get(key)`: an absent
key and a key whose parsed value is JSON `null` (Python `None`) both yield `none`.
`json.loads` keeps one entry per key, so the field list has no duplicates and
first-match lookup is the dict lookup. -/
def lookupNonNull : List (String × Json) → String → Option Json
  | [], _ => none
  | (k, v) :: rest, key =>
    if k = key then
      match v with
      | Json.null => none
      | _ => some v
    else lookupNonNull rest key

/-- Python `value.get(key)`: on a dict it is `lookupNonNull`; on any other parsed
JSON value (list, string, number, bool, None) Python raises `AttributeError`
because only dicts have a `get` method. -/
def Json.dictGet : Json → String → Except PyError (Option Json)
  | Json.obj fields, key => Except.ok (lookupNonNull fields key)
  | _, _ => Except.error (PyError.attributeError "object has no attribute get")

/-- An HTTP response as seen through the `requests` API: `status_code`, raw
`text`, and `jsonBody` — `some v` when `response.json()` parses to `v`, `none`
when it raises `json.JSONDecodeError`. -/
structure HTTPResponse where
  status_code : Nat
  text : String
  jsonBody : Option Json

/-- Outcome of one HTTP request at the transport level. -/
inductive ReqResult where
  | success : HTTPResponse → ReqResult
  | timeout : ReqResult
  | transportError : String → ReqResult

/-- A network request actually issued, recorded with its full URL. -/
inductive NetEvent where
  | post : String → NetEvent
  | getReq : String → NetEvent
deriving DecidableEq

/-- `TVDBClient.Constants.AUTH_TIMEOUT` (seconds). -/
def AUTH_TIMEOUT : Rat := 3

/-- `TVDBClient.Constants.MAX_AUTH_RETRY_COUNT`. -/
def MAX_AUTH_RETRY_COUNT : Nat := 3

/-- `TVDBClient._BASE_API`. -/
def BASE_API : String := "https://api.thetvdb.com"

/-- `TVDBClient._expand_url`. -/
def expand_url (path : String) : String := BASE_API ++ "/" ++ path

/-- The URL every login POST goes to. -/
def login_url : String := expand_url "login"

/-- The client state: the three secrets and the mutable `auth_token`
(`None` until a successful authentication stores the value of the response's
`token` field). -/
structure TVDBClient where
  api_key : String
  user_key : String
  user_name : String
  auth_token : Option Json

/-- Resolution of one constructor argument in `TVDBClient.__init__`: if the
explicit parameter is `None`, look the secret up in the keychain by label
(`keyper.get_password`); the result may still be `None`. -/
def resolveSecret (keychain : String → Option String) (given : Option String)
    (label : String) : Option String :=
  match given with
  | some v => some v
  | none => keychain label

/-- `TVDBClient.__init__`: resolve the three secrets in order (API key, user key,
user name), raising the built-in `Exception` with the corresponding message as
soon as one resolves to `None`; on success the client starts with no auth token. -/
def TVDBClient.init (keychain : String → Option String)
    (api_key user_key user_name : Option String) : Except PyError TVDBClient :=
  match resolveSecret keychain api_key "libtvdb_api_key" with
  | none => Except.error (PyError.exception "No API key was supplied or could be found in the keychain")
  | some ak =>
    match resolveSecret keychain user_key "libtvdb_user_key" with
    | none => Except.error (PyError.exception "No user key was supplied or could be found in the keychain")
    | some uk =>
      match resolveSecret keychain user_name "libtvdb_user_name" with
      | none => Except.error (PyError.exception "No user name was supplied or could be found in the keychain")
      | some un =>
        Except.ok { api_key := ak, user_key := uk, user_name := un, auth_token := none }

/-- The retry loop of `TVDBClient.authenticate`
(`for i in range(0, MAX_AUTH_RETRY_COUNT)`), with `i` the current loop index and
`fuel` the number of iterations the range still allows. Each iteration issues one
POST to the login URL (recorded in the trace) and inspects its transport outcome:
a response breaks out of the loop; `requests.exceptions.Timeout` is caught and
retried while `i < MAX_AUTH_RETRY_COUNT - 1`, the last timeout raising the plain
`Exception("Authentication timed out maximum number of times.")`; any other
transport exception is not caught and propagates. The `fuel = 0` case corresponds
to the loop ending with `response` unbound, unreachable from the real entry point
`loginLoop transport 0 MAX_AUTH_RETRY_COUNT` because the final timeout raises. -/
def loginLoop (transport : Nat → ReqResult) : Nat → Nat →
    Except PyError HTTPResponse × List NetEvent
  | _, 0 => (Except.error (PyError.exception "NameError: response referenced before assignment"), [])
  | i, fuel + 1 =>
    match transport i with
    | ReqResult.success r => (Except.ok r, [NetEvent.post login_url])
    | ReqResult.transportError name =>
      (Except.error (PyError.requestsTransport name), [NetEvent.post login_url])
    | ReqResult.timeout =>
      if i < MAX_AUTH_RETRY_COUNT - 1 then
        let rest := loginLoop transport (i + 1) fuel
        (rest.1, NetEvent.post login_url :: rest.2)
      else
        (Except.error (PyError.exception "Authentication timed out maximum number of times."),
         [NetEvent.post login_url])

/-- `TVDBClient.authenticate`: early return when a token is already held (no
network call); otherwise run the login retry loop, then classify the response:
a status outside [200, 300) raises `TVDBAuthenticationException` carrying the
status code; an unparsable body lets `json.JSONDecodeError` propagate; a body
whose `token` lookup yields `None` raises `TVDBAuthenticationException`;
otherwise the token is stored on the client. Returns the call outcome, the
client state after the call, and the trace of requests issued. -/
def TVDBClient.authenticate (c : TVDBClient) (transport : Nat → ReqResult) :
    Except PyError Unit × TVDBClient × List NetEvent :=
  match c.auth_token with
  | some _ => (Except.ok (), c, [])
  | none =>
    match loginLoop transport 0 MAX_AUTH_RETRY_COUNT with
    | (Except.error e, tr) => (Except.error e, c, tr)
    | (Except.ok r, tr) =>
      if r.status_code < 200 ∨ r.status_code ≥ 300 then
        (Except.error (PyError.tvdbAuthenticationException
          ("Authentication failed with status code: " ++ toString r.status_code)), c, tr)
      else
        match r.jsonBody with
        | none => (Except.error (PyError.jsonDecodeError r.text), c, tr)
        | some content =>
          match content.dictGet "token" with
          | Except.error e => (Except.error e, c, tr)
          | Except.ok none =>
            (Except.error (PyError.tvdbAuthenticationException
              "Failed to get token from login request"), c, tr)
          | Except.ok (some tok) =>
            (Except.ok (), { c with auth_token := some tok }, tr)

/-- `TVDBClient.get(url_path, *, timeout)`: reject a `None` or empty path with
`AttributeError` before any network activity; authenticate (propagating its
failures); issue one GET to the expanded URL; classify the response exactly as the
source does. A transport timeout or other transport exception of the GET itself is
not caught anywhere in `get` and propagates. Returns the call outcome, the client
state after the call, and the trace of requests issued. -/
def TVDBClient.get (c : TVDBClient) (url_path : Option String) (timeout : Rat)
    (transport : Nat → ReqResult) (getOutcome : ReqResult) :
    Except PyError Json × TVDBClient × List NetEvent :=
  match url_path with
  | none => (Except.error (PyError.attributeError "An invalid URL path was supplied"), c, [])
  | some path =>
    if path = "" then
      (Except.error (PyError.attributeError "An invalid URL path was supplied"), c, [])
    else
      match c.authenticate transport with
      | (Except.error e, c1, tr) => (Except.error e, c1, tr)
      | (Except.ok _, c1, tr) =>
        let tr1 := tr ++ [NetEvent.getReq (expand_url path)]
        match getOutcome with
        | ReqResult.timeout => (Except.error PyError.requestsTimeout, c1, tr1)
        | ReqResult.transportError name => (Except.error (PyError.requestsTransport name), c1, tr1)
        | ReqResult.success response =>
          if response.status_code < 200 ∨ response.status_code ≥ 300 then
            match response.jsonBody with
            | none =>
              (Except.error (PyError.tvdbException
                ("Could not decode error response: " ++ response.text)), c1, tr1)
            | some data =>
              match data.dictGet "Error" with
              | Except.error e => (Except.error e, c1, tr1)
              | Except.ok none =>
                (Except.error (PyError.tvdbException
                  ("Could not get error information: " ++ response.text)), c1, tr1)
              | Except.ok (some err) =>
                if Json.beq err (Json.str "Resource not found") then
                  (Except.error (PyError.notFoundException
                    ("Could not find resource for path: " ++ path)), c1, tr1)
                else
                  (Except.error (PyError.tvdbException
                    ("Unknown error: " ++ response.text)), c1, tr1)
          else
            match response.jsonBody with
            | none => (Except.error (PyError.jsonDecodeError response.text), c1, tr1)
            | some content =>
              match content.dictGet "data" with
              | Except.error e => (Except.error e, c1, tr1)
              | Except.ok none =>
                (Except.error (PyError.notFoundException
                  ("Could not get data for path: " ++ path)), c1, tr1)
              | Except.ok (some d) => (Except.ok d, c1, tr1)

/-- Uppercase hexadecimal digit, as used by `urllib.parse.quote`. -/
def hexDigit (n : Nat) : Char :=
  if n < 10 then Char.ofNat (48 + n) else Char.ofNat (55 + n)

/-- Percent-encoding of one byte: `%` followed by two uppercase hex digits. -/
def percentByte (b : Nat) : String :=
  String.mk ['%', hexDigit (b / 16), hexDigit (b % 16)]

/-- UTF-8 encoding of a Unicode code point, as `str.encode("utf-8")` produces
byte by byte. -/
def utf8Bytes (n : Nat) : List Nat :=
  if n < 128 then [n]
  else if n < 2048 then [192 + n / 64, 128 + n % 64]
  else if n < 65536 then [224 + n / 4096, 128 + (n / 64) % 64, 128 + n % 64]
  else [240 + n / 262144, 128 + (n / 4096) % 64, 128 + (n / 64) % 64, 128 + n % 64]

/-- The characters `urllib.parse.quote` leaves unencoded with its default
`safe="/"`: ASCII letters and digits, `_`, `.`, `-`, `~`, and `/`. -/
def isQuoteSafe (ch : Char) : Bool :=
  ch.isAlphanum || ch = '_' || ch = '.' || ch = '-' || ch = '~' || ch = '/'

/-- `urllib.parse.quote` applied to one character: safe ASCII characters pass
through; every other character has each of its UTF-8 bytes percent-encoded
(a multi-byte character has no safe bytes, so per-character and per-byte
treatment agree with Python's per-byte algorithm). -/
def quoteChar (ch : Char) : String :=
  if isQuoteSafe ch then String.mk [ch]
  else String.join ((utf8Bytes ch.toNat).map percentByte)

/-- `urllib.parse.quote` with the default `safe="/"`. -/
def urlQuote (s : String) : String :=
  String.join (s.toList.map quoteChar)

/-- Modelled from the spec: the `Show` record lives in `libtvdb/model/show.py`,
which is not among the provided sources. Spec §3: "identifier (integer) plus
descriptive fields (name, overview, air dates, etc.) built from a JSON object;
missing optional fields default to absent rather than erroring". Two
representative descriptive fields stand for the full layout, which the spec
leaves unspecified. -/
structure Show where
  identifier : Int
  name : Option String
  overview : Option String
deriving DecidableEq

/-- Integer read of an optional JSON value, defaulting to 0 when absent or not a
number (tolerant mode never errors). -/
def jsonToInt : Option Json → Int
  | some (Json.num n) => n
  | _ => 0

/-- String read of an optional JSON value: absent unless a JSON string. -/
def jsonToStr : Option Json → Option String
  | some (Json.str s) => some s
  | _ => none

/-- Modelled from the spec: `Show.from_json`, the tolerant parsing constructor of
`libtvdb/model/show.py` (not among the provided sources). Spec §4.3: "tolerant
mode: unknown/missing optional fields are skipped, not fatal"; accordingly it is
total. -/
def Show.from_json (j : Json) : Show :=
  match j with
  | Json.obj fields =>
    { identifier := jsonToInt (lookupNonNull fields "id"),
      name := jsonToStr (lookupNonNull fields "seriesName"),
      overview := jsonToStr (lookupNonNull fields "overview") }
  | _ => { identifier := 0, name := none, overview := none }

/-- `TVDBClient.search_show`: a `None` or empty name short-circuits to the empty
list with no network activity; otherwise one `get` on
`search/series?name=<url-encoded name>` and one `Show.from_json` per element of
the returned data array, in order. Iteration of a non-array data payload (Python
would iterate dict keys or string characters, or raise `TypeError`) is outside
every claim and is collapsed to the `TypeError` case. -/
def TVDBClient.search_show (c : TVDBClient) (show_name : Option String) (timeout : Rat)
    (transport : Nat → ReqResult) (getOutcome : ReqResult) :
    Except PyError (List Show) × TVDBClient × List NetEvent :=
  match show_name with
  | none => (Except.ok [], c, [])
  | some name =>
    if name = "" then (Except.ok [], c, [])
    else
      match c.get (some ("search/series?name=" ++ urlQuote name)) timeout transport getOutcome with
      | (Except.error e, c1, tr) => (Except.error e, c1, tr)
      | (Except.ok shows_data, c1, tr) =>
        match shows_data with
        | Json.arr items => (Except.ok (items.map Show.from_json), c1, tr)
        | _ => (Except.error (PyError.typeError "object is not iterable"), c1, tr)

/-- Is a trace event a GET request? -/
def NetEvent.isGetEvent : NetEvent → Bool
  | NetEvent.getReq _ => true
  | NetEvent.post _ => false

/-- Number of GET requests in a trace. -/
def countGets (tr : List NetEvent) : Nat :=
  (tr.filter NetEvent.isGetEvent).length

/-- Is an error the library's typed authentication failure? -/
def isAuthenticationException : PyError → Bool
  | PyError.tvdbAuthenticationException _ => true
  | _ => false

/-- The error component of a call result, when there is one. -/
def errorOf {α : Type} (r : Except PyError α × TVDBClient × List NetEvent) : Option PyError :=
  match r.1 with
  | Except.error e => some e
  | Except.ok _ => none

/-- A concrete unauthenticated client, used as a witness input. -/
def clientNoToken : TVDBClient :=
  { api_key := "k", user_key := "u", user_name := "n", auth_token := none }

/-- A concrete client already holding a token, used as a witness input. -/
def clientWithToken : TVDBClient :=
  { api_key := "k", user_key := "u", user_name := "n", auth_token := some (Json.str "T") }

/-- A transport on which every request times out. -/
def alwaysTimeout : Nat → ReqResult := fun _ => ReqResult.timeout

/-- A transport whose first attempt times out and whose second raises a
connection error. -/
def timeoutThenConnError : Nat → ReqResult :=
  fun j => if j = 0 then ReqResult.timeout else ReqResult.transportError "ConnectionError"

/-- A keychain holding no secrets. -/
def emptyKeychain : String → Option String := fun _ => none

/-- A login response rejecting the credentials with HTTP 401. -/
def resp401 : HTTPResponse :=
  { status_code := 401,
    text := "Not Authorized",
    jsonBody := some (Json.obj [("Error", Json.str "Not Authorized")]) }

/-- A transport answering every request with the 401 rejection. -/
def reject401Login : Nat → ReqResult := fun _ => ReqResult.success resp401

/-- A 200 response whose body parses to a JSON array rather than an object. -/
def resp200arr : HTTPResponse :=
  { status_code := 200, text := "[1]", jsonBody := some (Json.arr [Json.num 1]) }

/-- A transport answering every request with the 200 array-body response. -/
def arrayBodyLogin : Nat → ReqResult := fun _ => ReqResult.success resp200arr

/-- A 500 response whose body parses to a JSON array rather than an object. -/
def resp500arr : HTTPResponse :=
  { status_code := 500, text := "[1]", jsonBody := some (Json.arr [Json.num 1]) }

/-- A 404 response carrying the service's "Resource not found" error envelope. -/
def resp404 : HTTPResponse :=
  { status_code := 404,
    text := "Error: Resource not found",
    jsonBody := some (Json.obj [("Error", Json.str "Resource not found")]) }

/-- A 200 response whose envelope carries a `data` value. -/
def respData200 : HTTPResponse :=
  { status_code := 200,
    text := "data: 5",
    jsonBody := some (Json.obj [("data", Json.num 5)]) }

/-- A JSON object describing one show, as an element of a search response's
`data` array. -/
def searchShowJson : Json :=
  Json.obj [("id", Json.num 7), ("seriesName", Json.str "A"), ("overview", Json.null)]

/-- A 200 search response whose `data` array holds one show object. -/
def searchOutcome : ReqResult :=
  ReqResult.success
    { status_code := 200,
      text := "one show",
      jsonBody := some (Json.obj [("data", Json.arr [searchShowJson])]) }

/-- Is an error one of the two kinds the gateway's classification may raise on an
error response: the generic `TVDBException` or `NotFoundException`? -/
def isTvdbOrNotFound : PyError → Bool
  | PyError.tvdbException _ => true
  | PyError.notFoundException _ => true
  | _ => false

/-- If a token is already held, `authenticate` is the no-op: same client, no
network traffic. -/
theorem authenticate_of_isSome (c : TVDBClient) (tp : Nat → ReqResult)
    (h : c.auth_token.isSome) : c.authenticate tp = (Except.ok (), c, []) := by
  unfold TVDBClient.authenticate
  cases hc : c.auth_token with
  | some t => rfl
  | none => rw [hc] at h; simp at h

/-- A successful `authenticate` leaves the client holding a token. -/
theorem authenticate_ok_isSome (c c1 : TVDBClient) (tp : Nat → ReqResult) (tr : List NetEvent)
    (h : c.authenticate tp = (Except.ok (), c1, tr)) : c1.auth_token.isSome := by
  unfold TVDBClient.authenticate at h
  cases hc : c.auth_token with
  | some t =>
    rw [hc] at h
    simp at h
    rw [← h.1, hc]
    rfl
  | none =>
    rw [hc] at h
    rcases hl : loginLoop tp 0 MAX_AUTH_RETRY_COUNT with ⟨res, tr0⟩
    rw [hl] at h
    simp only at h
    cases res with
    | error e => simp at h
    | ok r =>
      simp only at h
      by_cases hs : r.status_code < 200 ∨ r.status_code ≥ 300
      · rw [if_pos hs] at h
        simp at h
      · rw [if_neg hs] at h
        cases hb : r.jsonBody with
        | none => rw [hb] at h; simp at h
        | some content =>
          rw [hb] at h
          simp only at h
          rcases hd : content.dictGet "token" with e | od
          · rw [hd] at h; simp at h
          · rw [hd] at h
            cases od with
            | none => simp at h
            | some tok =>
              simp at h
              rw [← h.1]
              rfl

/-- Claim C6: `authenticate` is idempotent. With a token already held it makes no
network call and leaves the client (hence the stored token) unchanged; and after
any successful authentication, a further call makes no additional network call
and changes nothing. -/
theorem authenticate_idempotent (c : TVDBClient) (tp tp2 : Nat → ReqResult) :
    (c.auth_token.isSome → c.authenticate tp = (Except.ok (), c, [])) ∧
    (∀ c1 tr, c.authenticate tp = (Except.ok (), c1, tr) →
      c1.authenticate tp2 = (Except.ok (), c1, [])) :=
  ⟨fun h => authenticate_of_isSome c tp h,
   fun c1 tr h => authenticate_of_isSome c1 tp2 (authenticate_ok_isSome c c1 tp tr h)⟩

/-- Witness for C6 at a concrete client already holding a token. -/
theorem authenticate_idempotent_witness :
    clientWithToken.authenticate alwaysTimeout = (Except.ok (), clientWithToken, []) :=
  (authenticate_idempotent clientWithToken alwaysTimeout alwaysTimeout).1 rfl

/-- Claim C7: a `None` or empty path makes `get` raise `AttributeError` with no
network activity at all — no authentication attempt and no GET (empty trace,
client unchanged). -/
theorem get_invalid_path (c : TVDBClient) (t : Rat) (tp : Nat → ReqResult)
    (g : ReqResult) (p : Option String) (hp : p = none ∨ p = some "") :
    c.get p t tp g =
      (Except.error (PyError.attributeError "An invalid URL path was supplied"), c, []) := by
  rcases hp with h | h <;> subst h <;> rfl

/-- Witness for C7 at the empty path on a concrete client. -/
theorem get_invalid_path_witness :
    clientNoToken.get (some "") 10 alwaysTimeout ReqResult.timeout =
      (Except.error (PyError.attributeError "An invalid URL path was supplied"),
       clientNoToken, []) :=
  get_invalid_path clientNoToken 10 alwaysTimeout ReqResult.timeout (some "") (Or.inr rfl)

/-- Claim C8: `search_show` on a `None` or empty name returns the empty list with
zero network calls (empty trace: no authentication attempt and no GET) and an
unchanged client. -/
theorem search_show_empty_name (c : TVDBClient) (t : Rat) (tp : Nat → ReqResult)
    (g : ReqResult) (nm : Option String) (hn : nm = none ∨ nm = some "") :
    c.search_show nm t tp g = (Except.ok [], c, []) := by
  rcases hn with h | h <;> subst h <;> rfl

/-- Witness for C8 at the empty name on a concrete client. -/
theorem search_show_empty_name_witness :
    clientNoToken.search_show (some "") 10 alwaysTimeout ReqResult.timeout =
      (Except.ok [], clientNoToken, []) :=
  search_show_empty_name clientNoToken 10 alwaysTimeout ReqResult.timeout (some "") (Or.inr rfl)

/-- Counterexample to claim C1 as stated: with no token held and every login
attempt timing out, `authenticate` does make exactly 3 POST attempts, but the
error it fails with is the plain built-in `Exception`, not the library's typed
`TVDBAuthenticationException` (the AuthenticationError of the taxonomy). -/
theorem authenticate_timeout_untyped_error_cex :
    (clientNoToken.authenticate alwaysTimeout).2.2.length = 3 ∧
    errorOf (clientNoToken.authenticate alwaysTimeout) =
      some (PyError.exception "Authentication timed out maximum number of times.") ∧
    isAuthenticationException
      (PyError.exception "Authentication timed out maximum number of times.") = false :=
  ⟨rfl, rfl, rfl⟩

/-- Claim C1 (amended): for every client holding no token, if all login attempts
raise a transport-level timeout, `authenticate` makes exactly
`MAX_AUTH_RETRY_COUNT = 3` POST attempts and then fails with the plain (untyped)
exception "Authentication timed out maximum number of times." — not with the
typed authentication error — leaving the client unchanged. -/
theorem authenticate_timeout_exhaustion (c : TVDBClient) (tp : Nat → ReqResult)
    (hc : c.auth_token = none)
    (ht : ∀ i, i < MAX_AUTH_RETRY_COUNT → tp i = ReqResult.timeout) :
    c.authenticate tp =
      (Except.error (PyError.exception "Authentication timed out maximum number of times."), c,
       List.replicate MAX_AUTH_RETRY_COUNT (NetEvent.post login_url)) := by
  have h0 := ht 0 (by decide)
  have h1 := ht 1 (by decide)
  have h2 := ht 2 (by decide)
  unfold TVDBClient.authenticate
  rw [hc]
  have hloop : loginLoop tp 0 MAX_AUTH_RETRY_COUNT =
      (Except.error (PyError.exception "Authentication timed out maximum number of times."),
       List.replicate MAX_AUTH_RETRY_COUNT (NetEvent.post login_url)) := by
    simp [loginLoop, MAX_AUTH_RETRY_COUNT, h0, h1, h2, List.replicate]
  rw [hloop]

/-- Witness for the amended C1 at a concrete client and an always-timing-out
transport. -/
theorem authenticate_timeout_exhaustion_witness :
    clientNoToken.authenticate alwaysTimeout =
      (Except.error (PyError.exception "Authentication timed out maximum number of times."),
       clientNoToken, List.replicate MAX_AUTH_RETRY_COUNT (NetEvent.post login_url)) :=
  authenticate_timeout_exhaustion clientNoToken alwaysTimeout rfl (fun _ _ => rfl)

/-- Claim C10: during `authenticate`, only a transport-level timeout is retried.
If the first k attempts time out (k below the retry bound) and attempt k raises
any other transport exception, that exception propagates immediately on the
attempt that raised it — exactly k + 1 POSTs, no further retry — and it is the
transport error itself, not one of the library's typed error kinds. -/
theorem authenticate_transport_error_propagates (c : TVDBClient) (tp : Nat → ReqResult)
    (k : Nat) (name : String) (hc : c.auth_token = none) (hk : k < MAX_AUTH_RETRY_COUNT)
    (ht : ∀ j, j < k → tp j = ReqResult.timeout)
    (he : tp k = ReqResult.transportError name) :
    c.authenticate tp =
      (Except.error (PyError.requestsTransport name), c,
       List.replicate (k + 1) (NetEvent.post login_url)) := by
  unfold TVDBClient.authenticate
  rw [hc]
  have hk3 : k < 3 := hk
  interval_cases k
  · have hloop : loginLoop tp 0 MAX_AUTH_RETRY_COUNT =
        (Except.error (PyError.requestsTransport name),
         List.replicate 1 (NetEvent.post login_url)) := by
      simp [loginLoop, MAX_AUTH_RETRY_COUNT, he, List.replicate]
    rw [hloop]
  · have h0 := ht 0 (by omega)
    have hloop : loginLoop tp 0 MAX_AUTH_RETRY_COUNT =
        (Except.error (PyError.requestsTransport name),
         List.replicate 2 (NetEvent.post login_url)) := by
      simp [loginLoop, MAX_AUTH_RETRY_COUNT, h0, he, List.replicate]
    rw [hloop]
  · have h0 := ht 0 (by omega)
    have h1 := ht 1 (by omega)
    have hloop : loginLoop tp 0 MAX_AUTH_RETRY_COUNT =
        (Except.error (PyError.requestsTransport name),
         List.replicate 3 (NetEvent.post login_url)) := by
      simp [loginLoop, MAX_AUTH_RETRY_COUNT, h0, h1, he, List.replicate]
    rw [hloop]

/-- Witness for C10: first attempt times out, second raises a connection error,
which propagates after exactly 2 POSTs. -/
theorem authenticate_transport_error_propagates_witness :
    clientNoToken.authenticate timeoutThenConnError =
      (Except.error (PyError.requestsTransport "ConnectionError"), clientNoToken,
       List.replicate 2 (NetEvent.post login_url)) :=
  authenticate_transport_error_propagates clientNoToken timeoutThenConnError 1 "ConnectionError"
    rfl (by decide)
    (fun j hj => by
      have hj0 : j = 0 := by omega
      subst hj0
      rfl)
    rfl

/-- Counterexample to claim C2 as stated: construction with an explicitly empty
API key string succeeds and produces a client whose `api_key` is empty — the
constructor only checks that each secret resolves to a value, never that it is
non-empty. -/
theorem init_accepts_empty_secret_cex :
    TVDBClient.init emptyKeychain (some "") (some "k") (some "n") =
      Except.ok { api_key := "", user_key := "k", user_name := "n", auth_token := none } :=
  rfl

/-- Claim C2 (amended): construction succeeds exactly when all three secrets
resolve to some value (explicit argument, else credential source); the first
secret that resolves to `None` — checked in the order API key, user key, user
name — fails construction with an error and no client is produced. Empty strings
are accepted as secrets. -/
theorem init_succeeds_iff_resolvable (keychain : String → Option String)
    (a u n : Option String) :
    (∀ ak uk un,
      resolveSecret keychain a "libtvdb_api_key" = some ak →
      resolveSecret keychain u "libtvdb_user_key" = some uk →
      resolveSecret keychain n "libtvdb_user_name" = some un →
      TVDBClient.init keychain a u n =
        Except.ok { api_key := ak, user_key := uk, user_name := un, auth_token := none }) ∧
    (resolveSecret keychain a "libtvdb_api_key" = none →
      TVDBClient.init keychain a u n =
        Except.error (PyError.exception "No API key was supplied or could be found in the keychain")) ∧
    (∀ ak,
      resolveSecret keychain a "libtvdb_api_key" = some ak →
      resolveSecret keychain u "libtvdb_user_key" = none →
      TVDBClient.init keychain a u n =
        Except.error (PyError.exception "No user key was supplied or could be found in the keychain")) ∧
    (∀ ak uk,
      resolveSecret keychain a "libtvdb_api_key" = some ak →
      resolveSecret keychain u "libtvdb_user_key" = some uk →
      resolveSecret keychain n "libtvdb_user_name" = none →
      TVDBClient.init keychain a u n =
        Except.error (PyError.exception "No user name was supplied or could be found in the keychain")) := by
  refine ⟨?_, ?_, ?_, ?_⟩ <;> intros <;> unfold TVDBClient.init <;> simp_all

/-- Witness for the amended C2: all three secrets explicit, construction yields
the expected client. -/
theorem init_succeeds_iff_resolvable_witness :
    TVDBClient.init emptyKeychain (some "A") (some "U") (some "N") =
      Except.ok { api_key := "A", user_key := "U", user_name := "N", auth_token := none } :=
  (init_succeeds_iff_resolvable emptyKeychain (some "A") (some "U") (some "N")).1
    "A" "U" "N" rfl rfl rfl

/-- Counterexample to claim C5 as stated: a login response with status 200 whose
body parses to a JSON array has no `token` field, yet `authenticate` raises
Python's `AttributeError` (from calling `.get` on a list), not the typed
authentication error the claim demands. -/
theorem authenticate_nonobject_body_cex :
    errorOf (clientNoToken.authenticate arrayBodyLogin) =
      some (PyError.attributeError "object has no attribute get") ∧
    isAuthenticationException (PyError.attributeError "object has no attribute get") = false :=
  ⟨rfl, rfl⟩

/-- Claim C5 (amended): for an unauthenticated client whose first login attempt
yields a response, a status outside 200–299 raises the typed
`TVDBAuthenticationException` carrying the status code, and a successful status
whose body parses to a JSON object without a `token` field raises the typed
`TVDBAuthenticationException`; in both cases the client is returned unchanged
with its token still unset, so the next operation retries the full login
sequence. (A success body that parses to a non-object instead raises
`AttributeError`.) -/
theorem authenticate_response_failures (c : TVDBClient) (tp : Nat → ReqResult)
    (r : HTTPResponse) (hc : c.auth_token = none) (h0 : tp 0 = ReqResult.success r) :
    ((r.status_code < 200 ∨ r.status_code ≥ 300) →
      c.authenticate tp =
        (Except.error (PyError.tvdbAuthenticationException
          ("Authentication failed with status code: " ++ toString r.status_code)), c,
         [NetEvent.post login_url])) ∧
    (∀ fields,
      ¬(r.status_code < 200 ∨ r.status_code ≥ 300) →
      r.jsonBody = some (Json.obj fields) →
      lookupNonNull fields "token" = none →
      c.authenticate tp =
        (Except.error (PyError.tvdbAuthenticationException
          "Failed to get token from login request"), c, [NetEvent.post login_url])) := by
  have hloop : loginLoop tp 0 MAX_AUTH_RETRY_COUNT = (Except.ok r, [NetEvent.post login_url]) := by
    simp [loginLoop, MAX_AUTH_RETRY_COUNT, h0]
  unfold TVDBClient.authenticate
  rw [hc, hloop]
  simp only
  constructor
  · intro hs
    rw [if_pos hs]
  · intro fields hs hb htok
    rw [if_neg hs, hb]
    simp [Json.dictGet, htok]

/-- Witness for the amended C5: the 401 rejection raises the typed
authentication error carrying the status code and leaves the client unchanged. -/
theorem authenticate_response_failures_witness :
    clientNoToken.authenticate reject401Login =
      (Except.error (PyError.tvdbAuthenticationException
        ("Authentication failed with status code: " ++ toString resp401.status_code)),
       clientNoToken, [NetEvent.post login_url]) :=
  (authenticate_response_failures clientNoToken reject401Login resp401 rfl rfl).1
    (Or.inr (by decide))

/-- Counterexample to claim C3 as stated: a GET response with status 500 whose
body parses as JSON but not as a JSON object (here an array) has no `Error`
field, yet the call fails with Python's `AttributeError` (from calling `.get` on
a list), not with a generic API error carrying the raw response text. -/
theorem get_error_nonobject_cex :
    errorOf (clientWithToken.get (some "series/1") 10 alwaysTimeout
      (ReqResult.success resp500arr)) =
      some (PyError.attributeError "object has no attribute get") ∧
    isTvdbOrNotFound (PyError.attributeError "object has no attribute get") = false :=
  ⟨rfl, rfl⟩

/-- Claim C3 (amended): for a `get` whose response status is outside [200, 300):
an unparsable body fails with the generic `TVDBException` carrying the raw text;
a body parsing as a JSON object without an `Error` field fails with the generic
`TVDBException` carrying the raw text; an `Error` field equal to the literal
string "Resource not found" fails with `NotFoundException`; any other `Error`
value fails with the generic `TVDBException` carrying the raw text. (A body
parsing as a non-object instead raises `AttributeError`.) -/
theorem get_error_classification (c c1 : TVDBClient) (tp : Nat → ReqResult)
    (atr : List NetEvent) (path : String) (t : Rat) (r : HTTPResponse)
    (hpath : path ≠ "") (hauth : c.authenticate tp = (Except.ok (), c1, atr))
    (hstatus : r.status_code < 200 ∨ r.status_code ≥ 300) :
    (r.jsonBody = none →
      c.get (some path) t tp (ReqResult.success r) =
        (Except.error (PyError.tvdbException ("Could not decode error response: " ++ r.text)),
         c1, atr ++ [NetEvent.getReq (expand_url path)])) ∧
    (∀ fields, r.jsonBody = some (Json.obj fields) →
      lookupNonNull fields "Error" = none →
      c.get (some path) t tp (ReqResult.success r) =
        (Except.error (PyError.tvdbException ("Could not get error information: " ++ r.text)),
         c1, atr ++ [NetEvent.getReq (expand_url path)])) ∧
    (∀ fields, r.jsonBody = some (Json.obj fields) →
      lookupNonNull fields "Error" = some (Json.str "Resource not found") →
      c.get (some path) t tp (ReqResult.success r) =
        (Except.error (PyError.notFoundException ("Could not find resource for path: " ++ path)),
         c1, atr ++ [NetEvent.getReq (expand_url path)])) ∧
    (∀ fields e, r.jsonBody = some (Json.obj fields) →
      lookupNonNull fields "Error" = some e →
      Json.beq e (Json.str "Resource not found") = false →
      c.get (some path) t tp (ReqResult.success r) =
        (Except.error (PyError.tvdbException ("Unknown error: " ++ r.text)),
         c1, atr ++ [NetEvent.getReq (expand_url path)])) := by
  refine ⟨?_, ?_, ?_, ?_⟩
  · intro hb
    unfold TVDBClient.get
    simp only
    rw [if_neg hpath, hauth]
    simp only
    rw [if_pos hstatus, hb]
  · intro fields hb hlook
    unfold TVDBClient.get
    simp only
    rw [if_neg hpath, hauth]
    simp only
    rw [if_pos hstatus, hb]
    simp [Json.dictGet, hlook]
  · intro fields hb hlook
    unfold TVDBClient.get
    simp only
    rw [if_neg hpath, hauth]
    simp only
    rw [if_pos hstatus, hb]
    simp [Json.dictGet, hlook, Json.beq]
  · intro fields e hb hlook hne
    unfold TVDBClient.get
    simp only
    rw [if_neg hpath, hauth]
    simp only
    rw [if_pos hstatus, hb]
    simp [Json.dictGet, hlook, hne]

/-- Witness for the amended C3: status 404 with the "Resource not found" error
envelope yields `NotFoundException`, on an already-authenticated client. -/
theorem get_error_classification_witness :
    clientWithToken.get (some "series/999") 10 alwaysTimeout (ReqResult.success resp404) =
      (Except.error (PyError.notFoundException ("Could not find resource for path: " ++ "series/999")),
       clientWithToken, [NetEvent.getReq (expand_url "series/999")]) :=
  (get_error_classification clientWithToken clientWithToken alwaysTimeout [] "series/999" 10
    resp404 (by decide) rfl (Or.inr (by decide))).2.2.1
    [("Error", Json.str "Resource not found")] rfl rfl

/-- Counterexample to claim C4 as stated: a GET response with status 200 whose
body parses as JSON but not as a JSON object (here an array) has no `data` key,
yet the call fails with Python's `AttributeError` (from calling `.get` on a
list), not with `NotFoundException`. -/
theorem get_success_nonobject_cex :
    errorOf (clientWithToken.get (some "series/1") 10 alwaysTimeout
      (ReqResult.success resp200arr)) =
      some (PyError.attributeError "object has no attribute get") ∧
    isTvdbOrNotFound (PyError.attributeError "object has no attribute get") = false :=
  ⟨rfl, rfl⟩

/-- Claim C4 (amended): for a `get` whose response status is in [200, 300) and
whose body parses as a JSON object, a `data` key that is absent or null fails
the call with `NotFoundException`, and otherwise `get` returns the value of the
`data` key. (A body parsing as a non-object instead raises `AttributeError`.) -/
theorem get_success_classification (c c1 : TVDBClient) (tp : Nat → ReqResult)
    (atr : List NetEvent) (path : String) (t : Rat) (r : HTTPResponse)
    (hpath : path ≠ "") (hauth : c.authenticate tp = (Except.ok (), c1, atr))
    (hstatus : ¬(r.status_code < 200 ∨ r.status_code ≥ 300)) :
    (∀ fields, r.jsonBody = some (Json.obj fields) →
      lookupNonNull fields "data" = none →
      c.get (some path) t tp (ReqResult.success r) =
        (Except.error (PyError.notFoundException ("Could not get data for path: " ++ path)),
         c1, atr ++ [NetEvent.getReq (expand_url path)])) ∧
    (∀ fields d, r.jsonBody = some (Json.obj fields) →
      lookupNonNull fields "data" = some d →
      c.get (some path) t tp (ReqResult.success r) =
        (Except.ok d, c1, atr ++ [NetEvent.getReq (expand_url path)])) := by
  constructor
  · intro fields hb hlook
    unfold TVDBClient.get
    simp only
    rw [if_neg hpath, hauth]
    simp only
    rw [if_neg hstatus, hb]
    simp [Json.dictGet, hlook]
  · intro fields d hb hlook
    unfold TVDBClient.get
    simp only
    rw [if_neg hpath, hauth]
    simp only
    rw [if_neg hstatus, hb]
    simp [Json.dictGet, hlook]

/-- Witness for the amended C4: status 200 with a `data` value returns that
value, on an already-authenticated client. -/
theorem get_success_classification_witness :
    clientWithToken.get (some "series/1") 10 alwaysTimeout (ReqResult.success respData200) =
      (Except.ok (Json.num 5), clientWithToken, [NetEvent.getReq (expand_url "series/1")]) :=
  (get_success_classification clientWithToken clientWithToken alwaysTimeout [] "series/1" 10
    respData200 (by decide) rfl (by decide)).2 [("data", Json.num 5)] (Json.num 5) rfl rfl

/-- Every event the login retry loop records is a POST. -/
theorem loginLoop_trace_posts (tp : Nat → ReqResult) (i fuel : Nat) :
    ∀ e ∈ (loginLoop tp i fuel).2, e.isGetEvent = false := by
  induction fuel generalizing i with
  | zero =>
    intro e he
    simp [loginLoop] at he
  | succ n ih =>
    intro e he
    unfold loginLoop at he
    cases htp : tp i with
    | success r =>
      rw [htp] at he
      simp at he
      subst he
      rfl
    | transportError name =>
      rw [htp] at he
      simp at he
      subst he
      rfl
    | timeout =>
      rw [htp] at he
      by_cases hi : i < MAX_AUTH_RETRY_COUNT - 1
      · rw [if_pos hi] at he
        simp at he
        rcases he with he | he
        · subst he; rfl
        · exact ih (i + 1) e he
      · rw [if_neg hi] at he
        simp at he
        subst he
        rfl

/-- Every event `authenticate` records is a POST: it never issues a GET. -/
theorem authenticate_trace_posts (c c1 : TVDBClient) (tp : Nat → ReqResult)
    (res : Except PyError Unit) (tr : List NetEvent)
    (h : c.authenticate tp = (res, c1, tr)) : ∀ e ∈ tr, e.isGetEvent = false := by
  unfold TVDBClient.authenticate at h
  cases hc : c.auth_token with
  | some t =>
    rw [hc] at h
    simp only [Prod.mk.injEq] at h
    rw [← h.2.2]
    intro e he
    simp at he
  | none =>
    rw [hc] at h
    rcases hl : loginLoop tp 0 MAX_AUTH_RETRY_COUNT with ⟨lres, tr0⟩
    rw [hl] at h
    simp only at h
    have htr0 : ∀ e ∈ tr0, e.isGetEvent = false := by
      intro e he
      have := loginLoop_trace_posts tp 0 MAX_AUTH_RETRY_COUNT
      rw [hl] at this
      exact this e he
    cases lres with
    | error e0 =>
      simp only [Prod.mk.injEq] at h
      exact h.2.2 ▸ htr0
    | ok r =>
      simp only at h
      repeat' split at h
      all_goals simp only [Prod.mk.injEq] at h
      all_goals exact h.2.2 ▸ htr0

/-- A successful `get` issues exactly the authentication POSTs followed by one
GET to the expanded path. -/
theorem get_ok_trace (c c1 : TVDBClient) (path : String) (t : Rat)
    (tp : Nat → ReqResult) (g : ReqResult) (d : Json) (tr : List NetEvent)
    (h : c.get (some path) t tp g = (Except.ok d, c1, tr)) :
    ∃ atr, tr = atr ++ [NetEvent.getReq (expand_url path)] ∧
      ∀ e ∈ atr, e.isGetEvent = false := by
  unfold TVDBClient.get at h
  simp only at h
  by_cases hp : path = ""
  · rw [if_pos hp] at h
    simp at h
  · rw [if_neg hp] at h
    rcases ha : c.authenticate tp with ⟨ares, ac, atr⟩
    rw [ha] at h
    cases ares with
    | error e0 => simp at h
    | ok u =>
      simp only at h
      have hposts := authenticate_trace_posts c ac tp (Except.ok u) atr ha
      refine ⟨atr, ?_, hposts⟩
      cases g with
      | timeout => simp at h
      | transportError name => simp at h
      | success r =>
        simp only at h
        repeat' split at h
        all_goals simp only [Prod.mk.injEq] at h
        all_goals exact h.2.2.symm

/-- Claim C9: for every non-empty show name, if the single GET on
`search/series?name=<url-encoded name>` succeeds with a `data` array,
`search_show` returns exactly one `Show` per element of that array via
`Show.from_json`, in the same order; the trace contains exactly one GET, and
that GET's URL carries the URL-encoded name. -/
theorem search_show_nonempty (c c1 : TVDBClient) (name : String) (t : Rat)
    (tp : Nat → ReqResult) (g : ReqResult) (items : List Json) (tr : List NetEvent)
    (hname : name ≠ "")
    (hget : c.get (some ("search/series?name=" ++ urlQuote name)) t tp g =
      (Except.ok (Json.arr items), c1, tr)) :
    c.search_show (some name) t tp g = (Except.ok (items.map Show.from_json), c1, tr) ∧
    (items.map Show.from_json).length = items.length ∧
    countGets tr = 1 ∧
    NetEvent.getReq (expand_url ("search/series?name=" ++ urlQuote name)) ∈ tr := by
  obtain ⟨atr, htr, hposts⟩ := get_ok_trace c c1 _ t tp g _ tr hget
  refine ⟨?_, by simp, ?_, ?_⟩
  · unfold TVDBClient.search_show
    simp only
    rw [if_neg hname, hget]
  · subst htr
    unfold countGets
    rw [List.filter_append]
    have hnil : atr.filter NetEvent.isGetEvent = [] :=
      List.filter_eq_nil_iff.mpr (fun e he => by simp [hposts e he])
    rw [hnil]
    rfl
  · subst htr
    exact List.mem_append_right _ (List.mem_singleton.mpr rfl)

/-- Witness for C9: a one-element search on an already-authenticated client. -/
theorem search_show_nonempty_witness :
    clientWithToken.search_show (some "a") 10 alwaysTimeout searchOutcome =
      (Except.ok ([searchShowJson].map Show.from_json), clientWithToken,
       [NetEvent.getReq (expand_url ("search/series?name=" ++ urlQuote "a"))]) ∧
    ([searchShowJson].map Show.from_json).length = [searchShowJson].length ∧
    countGets [NetEvent.getReq (expand_url ("search/series?name=" ++ urlQuote "a"))] = 1 ∧
    NetEvent.getReq (expand_url ("search/series?name=" ++ urlQuote "a")) ∈
      [NetEvent.getReq (expand_url ("search/series?name=" ++ urlQuote "a"))] :=
  search_show_nonempty clientWithToken clientWithToken "a" 10 alwaysTimeout searchOutcome
    [searchShowJson] [NetEvent.getReq (expand_url ("search/series?name=" ++ urlQuote "a"))]
    (by decide) rfl
